import Mathlib

/-!
Verification of the IEC-Link-Shortner backend (src/backend/server.ts).

The server stores records in a Deno KV store under the namespace "urls".
The POST /shorten handler parses the JSON body, rejects long URLs that
contain ".deno.dev", deduplicates by looking up the key equal to the long
URL, and otherwise writes a record keyed by the long URL whose value holds
the freshly generated shortId and the long URL itself.  The GET handler
slices the leading "/" from the pathname and looks the remainder up as a
key, redirecting with 302 when a record is found and answering 404
"URL not found" otherwise.  The random 6-character candidate produced by
crypto.randomUUID().slice(0, 6) is modelled as an explicit input.
-/

/-- Value stored under a key of the "urls" namespace.  The POST handler
writes both fields: kv.set(["urls", longUrl], (shortId, url: longUrl)). -/
structure UrlRecord where
  shortId : String
  url : String
deriving DecidableEq, Repr

/-- The KV store restricted to the "urls" namespace: an association list
from the second key component to the stored record, with unique keys. -/
abbrev Store : Type := List (String × UrlRecord)

/-- Point lookup, kv.get: first (and, with unique keys, only) binding. -/
def kvGet (st : Store) (k : String) : Option UrlRecord :=
  match st with
  | [] => none
  | (k2, v) :: rest => if k2 = k then some v else kvGet rest k

/-- Point write, kv.set: overwrite the existing binding or append one. -/
def kvSet (st : Store) (k : String) (v : UrlRecord) : Store :=
  match st with
  | [] => [(k, v)]
  | (k2, v2) :: rest => if k2 = k then (k2, v) :: rest else (k2, v2) :: kvSet rest k v

/-- Number of bindings a store holds for key k. -/
def countKey (st : Store) (k : String) : Nat :=
  match st with
  | [] => 0
  | (k2, _) :: rest => (if k2 = k then 1 else 0) + countKey rest k

/-- The keys of a store are pairwise distinct (the KV primitive keeps at
most one binding per key). -/
def uniqueKeys (st : Store) : Prop :=
  (st.map Prod.fst).Nodup

/-- Character-list test used to embed JavaScript String.prototype tests:
does the first list start with the second one. -/
def charsStartWith : List Char → List Char → Bool
  | _, [] => true
  | [], _ :: _ => false
  | c :: cs, d :: ds => c = d && charsStartWith cs ds

/-- Does the character list contain the pattern as a contiguous run. -/
def charsContain : List Char → List Char → Bool
  | l, pat =>
    if charsStartWith l pat then true
    else
      match l with
      | [] => false
      | _ :: rest => charsContain rest pat

/-- Embedding of longUrl.includes(pat). -/
def strIncludes (s pat : String) : Bool :=
  charsContain s.toList pat.toList

/-- Embedding of pathname.startsWith(pat). -/
def strStartsWith (s pat : String) : Bool :=
  charsStartWith s.toList pat.toList

/-- Embedding of pathname.slice(1). -/
def sliceOne (s : String) : String :=
  ⟨s.toList.drop 1⟩

/-- HTTP method of an incoming request (the ones the handler inspects). -/
inductive Method
  | GET
  | POST
  | OPTIONS
deriving DecidableEq, Repr

/-- An incoming request: method, URL pathname, and the "url" field of the
parsed JSON body when present (none embeds the JavaScript undefined that
destructuring a body without a "url" field produces). -/
structure Request where
  method : Method
  pathname : String
  jsonUrlField : Option String
deriving DecidableEq, Repr

/-- The responses the handler can construct, one constructor per
construction site in server.ts. -/
inductive HttpResponse
  | emptyOk
  | jsonShortId (shortId : String)
  | badRequest (msg : String)
  | redirect (location : String)
  | notFoundText (msg : String)
  | fileContent (path contentType : String)
deriving DecidableEq, Repr

/-- HTTP status code of each response. -/
def statusOf : HttpResponse → Nat
  | .emptyOk => 200
  | .jsonShortId _ => 200
  | .badRequest _ => 400
  | .redirect _ => 302
  | .notFoundText _ => 404
  | .fileContent _ _ => 200

/-- Is the response one of the static-file responses. -/
def isFileResponse : HttpResponse → Bool
  | .fileContent _ _ => true
  | _ => false

/-- A JavaScript runtime error escaping the handler; the surrounding
framework catches it and answers 500 "Internal Server Error". -/
inductive HandlerError
  | typeErrorUndefined (context : String)
deriving DecidableEq, Repr

/-- Body of the 400 response for a long URL containing ".deno.dev". -/
def domainLoopMsg : String := "Error: Long URL cannot contain .deno.dev"

/-- The POST /shorten block.  gen is the value crypto.randomUUID().slice(0, 6)
would produce for this request; body is the "url" field of the parsed JSON
body.  Destructuring a body without that field yields undefined, and
undefined.includes raises a TypeError. -/
def postShorten (gen : String) (body : Option String) (st : Store) :
    Except HandlerError (HttpResponse × Store) :=
  match body with
  | none => .error (.typeErrorUndefined "longUrl is undefined")
  | some longUrl =>
    if strIncludes longUrl ".deno.dev" = true then
      .ok (.badRequest domainLoopMsg, st)
    else
      match kvGet st longUrl with
      | some existingEntry => .ok (.jsonShortId existingEntry.shortId, st)
      | none =>
        let shortId := gen
        .ok (.jsonShortId shortId, kvSet st longUrl ⟨shortId, longUrl⟩)

/-- The GET branch guarded by pathname.startsWith("/"): look up the
pathname without its leading slash and redirect or answer 404. -/
def resolveGet (pathname : String) (st : Store) : HttpResponse × Store :=
  let shortId := sliceOne pathname
  match kvGet st shortId with
  | some result => (.redirect result.url, st)
  | none => (.notFoundText "URL not found", st)

/-- The whole request handler of server.ts, branches in source order. -/
def handleRequest (gen : String) (req : Request) (st : Store) :
    Except HandlerError (HttpResponse × Store) :=
  if req.method = .OPTIONS then
    .ok (.emptyOk, st)
  else if req.method = .POST ∧ req.pathname = "/shorten" then
    postShorten gen req.jsonUrlField st
  else if req.method = .GET ∧ strStartsWith req.pathname "/" = true then
    .ok (resolveGet req.pathname st)
  else if req.method = .GET ∧ req.pathname = "/" then
    .ok (.fileContent "./index.html" "text/html", st)
  else if req.method = .GET ∧ req.pathname = "/styles.css" then
    .ok (.fileContent "./styles.css" "text/css", st)
  else if req.method = .GET ∧ req.pathname = "/script.js" then
    .ok (.fileContent "./script.js" "application/javascript", st)
  else
    .ok (.notFoundText "Not Found", st)

/-- Bidirectional consistency of a store: every record keyed by a long
URL u whose value names shortId s has a companion record keyed by s that
maps back to u. -/
def bidirConsistent (st : Store) : Prop :=
  ∀ u r, kvGet st u = some r → ∃ r2, kvGet st r.shortId = some r2 ∧ r2.url = u

/-! Helper lemmas about the store primitives. -/

theorem kvGet_kvSet_self (st : Store) (k : String) (v : UrlRecord) :
    kvGet (kvSet st k v) k = some v := by
  induction st with
  | nil => simp [kvSet, kvGet]
  | cons hd tl ih =>
    obtain ⟨k2, v2⟩ := hd
    by_cases h : k2 = k
    · simp [kvSet, kvGet, h]
    · simp [kvSet, kvGet, h, ih]

theorem kvGet_kvSet_ne (st : Store) (k k2 : String) (v : UrlRecord)
    (h : k2 ≠ k) : kvGet (kvSet st k v) k2 = kvGet st k2 := by
  induction st with
  | nil => simp [kvSet, kvGet, Ne.symm h]
  | cons hd tl ih =>
    obtain ⟨k3, v3⟩ := hd
    by_cases h3 : k3 = k
    · subst h3
      simp [kvSet, kvGet, Ne.symm h]
    · simp only [kvSet, if_neg h3, kvGet]
      by_cases h32 : k3 = k2
      · simp [h32]
      · simp [h32, ih]

theorem countKey_eq_zero_of_not_mem (st : Store) (k : String)
    (h : k ∉ st.map Prod.fst) : countKey st k = 0 := by
  induction st with
  | nil => rfl
  | cons hd tl ih =>
    obtain ⟨k2, v2⟩ := hd
    simp only [List.map_cons, List.mem_cons] at h
    push_neg at h
    simp [countKey, Ne.symm h.1, ih h.2]

theorem countKey_eq_one_of_get (st : Store) (k : String) (v : UrlRecord)
    (hu : uniqueKeys st) (hg : kvGet st k = some v) : countKey st k = 1 := by
  induction st with
  | nil => simp [kvGet] at hg
  | cons hd tl ih =>
    obtain ⟨k2, v2⟩ := hd
    simp only [uniqueKeys, List.map_cons, List.nodup_cons] at hu
    by_cases h : k2 = k
    · subst h
      simp [countKey, countKey_eq_zero_of_not_mem tl k2 hu.1]
    · simp only [kvGet, if_neg h] at hg
      simp [countKey, h, ih hu.2 hg]

theorem mem_keys_kvSet (st : Store) (k k2 : String) (v : UrlRecord) :
    k2 ∈ (kvSet st k v).map Prod.fst ↔ k2 ∈ st.map Prod.fst ∨ k2 = k := by
  induction st with
  | nil => simp [kvSet, eq_comm]
  | cons hd tl ih =>
    obtain ⟨k3, v3⟩ := hd
    by_cases h3 : k3 = k
    · subst h3
      simp [kvSet, eq_comm]
      tauto
    · simp [kvSet, h3, ih]
      tauto

theorem uniqueKeys_kvSet (st : Store) (k : String) (v : UrlRecord)
    (hu : uniqueKeys st) : uniqueKeys (kvSet st k v) := by
  induction st with
  | nil => simp [kvSet, uniqueKeys]
  | cons hd tl ih =>
    obtain ⟨k3, v3⟩ := hd
    simp only [uniqueKeys, List.map_cons, List.nodup_cons] at hu
    by_cases h3 : k3 = k
    · subst h3
      simpa [kvSet, uniqueKeys] using hu
    · have := ih hu.2
      simp only [kvSet, if_neg h3, uniqueKeys, List.map_cons, List.nodup_cons]
      refine ⟨?_, this⟩
      rw [mem_keys_kvSet]
      push_neg
      exact ⟨hu.1, h3⟩

/-! Claim theorems. -/

/-- C1: the round-trip property fails on the code.  Shortening
"https://example.com" from the empty store with generated candidate
"a1b2c3" succeeds and returns shortId "a1b2c3", but the subsequent
GET /a1b2c3 answers 404 "URL not found" instead of redirecting to the
long URL, because the write keyed the record by the long URL and no
record keyed by the shortId exists. -/
theorem shorten_resolve_roundtrip_violated :
    postShorten "a1b2c3" (some "https://example.com") [] =
      .ok (.jsonShortId "a1b2c3",
        [("https://example.com", ⟨"a1b2c3", "https://example.com"⟩)]) ∧
    handleRequest "g" ⟨.GET, "/a1b2c3", none⟩
        [("https://example.com", ⟨"a1b2c3", "https://example.com"⟩)] =
      .ok (.notFoundText "URL not found",
        [("https://example.com", ⟨"a1b2c3", "https://example.com"⟩)]) ∧
    statusOf (.notFoundText "URL not found") = 404 :=
  ⟨rfl, rfl, rfl⟩

/-- C2: bidirectional consistency fails on the code.  After one
successful shorten, the store holds the forward record keyed by the long
URL, but no reverse record keyed by its shortId "a1b2c3" exists, so the
store invariant is violated. -/
theorem bidirectional_consistency_violated :
    postShorten "a1b2c3" (some "https://example.com") [] =
      .ok (.jsonShortId "a1b2c3",
        [("https://example.com", ⟨"a1b2c3", "https://example.com"⟩)]) ∧
    ¬ bidirConsistent [("https://example.com", ⟨"a1b2c3", "https://example.com"⟩)] := by
  refine ⟨rfl, ?_⟩
  intro h
  obtain ⟨r2, hr2, -⟩ :=
    h "https://example.com" ⟨"a1b2c3", "https://example.com"⟩ rfl
  have hnone : kvGet [("https://example.com",
      (⟨"a1b2c3", "https://example.com"⟩ : UrlRecord))] "a1b2c3" = none := rfl
  rw [hnone] at hr2
  exact Option.noConfusion hr2

/-- C4: a long URL containing the service domain substring ".deno.dev"
is rejected with the 400 response and the store is left unchanged: no
forward or reverse record is written. -/
theorem domain_loop_rejected (g u : String) (st : Store)
    (h : strIncludes u ".deno.dev" = true) :
    postShorten g (some u) st = .ok (.badRequest domainLoopMsg, st) ∧
    statusOf (.badRequest domainLoopMsg) = 400 := by
  refine ⟨?_, rfl⟩
  unfold postShorten
  simp [h]

/-- C4 witness: the theorem applied to the concrete long URL
"https://foo.deno.dev/x" on the empty store. -/
theorem domain_loop_rejected_witness :
    strIncludes "https://foo.deno.dev/x" ".deno.dev" = true ∧
    (postShorten "abcdef" (some "https://foo.deno.dev/x") [] =
      .ok (.badRequest domainLoopMsg, []) ∧
    statusOf (.badRequest domainLoopMsg) = 400) :=
  ⟨by decide, domain_loop_rejected "abcdef" "https://foo.deno.dev/x" [] (by decide)⟩

/-- C8: a POST /shorten whose JSON body lacks the url field does not
produce a 400 response; destructuring yields undefined and the call
undefined.includes raises a TypeError that escapes the handler (the
surrounding framework turns it into a 500, not a 400). -/
theorem missing_url_field_crashes :
    handleRequest "abc123" ⟨.POST, "/shorten", none⟩ [] =
      .error (.typeErrorUndefined "longUrl is undefined") :=
  rfl

/-- C3: shorten is idempotent.  For a valid long URL u and a store with
unique keys, two consecutive POST /shorten calls (with arbitrary
generator outputs g1 and g2) return the same shortId, the second call
writes nothing, and the resulting store holds exactly one forward record
for u. -/
theorem shorten_idempotent (g1 g2 u : String) (st : Store)
    (hvalid : strIncludes u ".deno.dev" = false) (hkeys : uniqueKeys st) :
    ∃ s st1, postShorten g1 (some u) st = .ok (.jsonShortId s, st1) ∧
      postShorten g2 (some u) st1 = .ok (.jsonShortId s, st1) ∧
      countKey st1 u = 1 := by
  unfold postShorten
  simp only [hvalid, Bool.false_eq_true, if_false]
  cases hget : kvGet st u with
  | some e =>
    refine ⟨e.shortId, st, by simp [hget], by simp [hget], ?_⟩
    exact countKey_eq_one_of_get st u e hkeys hget
  | none =>
    refine ⟨g1, kvSet st u ⟨g1, u⟩, by simp [hget], ?_, ?_⟩
    · rw [kvGet_kvSet_self st u ⟨g1, u⟩]
    · exact countKey_eq_one_of_get _ u ⟨g1, u⟩ (uniqueKeys_kvSet st u ⟨g1, u⟩ hkeys)
        (kvGet_kvSet_self st u ⟨g1, u⟩)

/-- C3 witness: the theorem applied to "https://example.com" on the
empty store with generator outputs "aaaaaa" and "bbbbbb". -/
theorem shorten_idempotent_witness :
    strIncludes "https://example.com" ".deno.dev" = false ∧
    uniqueKeys ([] : Store) ∧
    ∃ s st1, postShorten "aaaaaa" (some "https://example.com") [] =
        .ok (.jsonShortId s, st1) ∧
      postShorten "bbbbbb" (some "https://example.com") st1 =
        .ok (.jsonShortId s, st1) ∧
      countKey st1 "https://example.com" = 1 :=
  ⟨by decide, List.nodup_nil,
    shorten_idempotent "aaaaaa" "bbbbbb" "https://example.com" [] (by decide) List.nodup_nil⟩

/-- C5: counterexample to the collision-handling claim.  The store
already holds a record keyed by the candidate "abc123" that maps to the
different long URL "http://other.example", yet shorten commits the very
first candidate "abc123" without any check, retry, or
AllocationExhaustedError. -/
theorem collision_check_absent_cex :
    postShorten "abc123" (some "http://new.example")
        [("abc123", ⟨"zzzzzz", "http://other.example"⟩)] =
      .ok (.jsonShortId "abc123",
        [("abc123", ⟨"zzzzzz", "http://other.example"⟩),
         ("http://new.example", ⟨"abc123", "http://new.example"⟩)]) :=
  rfl

/-- C5 amended: shorten commits the single generated candidate
unconditionally.  Whenever the long URL is valid and has no forward
record, the result is the candidate g itself and one write, regardless
of what any other key (in particular g) maps to; no retry and no
exhaustion error exist. -/
theorem shorten_commits_candidate_unconditionally (g u : String) (st : Store)
    (hvalid : strIncludes u ".deno.dev" = false) (hfresh : kvGet st u = none) :
    postShorten g (some u) st = .ok (.jsonShortId g, kvSet st u ⟨g, u⟩) := by
  unfold postShorten
  simp [hvalid, hfresh]

/-- C5 amended witness: even with the candidate already present as a key
for a different URL, shorten returns that candidate. -/
theorem shorten_commits_candidate_unconditionally_witness :
    strIncludes "http://fresh.example" ".deno.dev" = false ∧
    kvGet [("abc123", ⟨"zzzzzz", "http://other.example"⟩)] "http://fresh.example" = none ∧
    postShorten "abc123" (some "http://fresh.example")
        [("abc123", ⟨"zzzzzz", "http://other.example"⟩)] =
      .ok (.jsonShortId "abc123",
        kvSet [("abc123", ⟨"zzzzzz", "http://other.example"⟩)]
          "http://fresh.example" ⟨"abc123", "http://fresh.example"⟩) :=
  ⟨by decide, by decide,
    shorten_commits_candidate_unconditionally "abc123" "http://fresh.example"
      [("abc123", ⟨"zzzzzz", "http://other.example"⟩)] (by decide) (by decide)⟩

/-- C6: the not-found contract fails on the code.  After shortening
"https://example.com" (candidate "a1b2c3"), resolving the string
"https://example.com" — which was never allocated as a short ID —
redirects with 302 instead of answering 404, while resolving the mapped
short ID "a1b2c3" answers 404 instead of redirecting. -/
theorem resolve_notfound_violated :
    postShorten "a1b2c3" (some "https://example.com") [] =
      .ok (.jsonShortId "a1b2c3",
        [("https://example.com", ⟨"a1b2c3", "https://example.com"⟩)]) ∧
    handleRequest "g" ⟨.GET, "/https://example.com", none⟩
        [("https://example.com", ⟨"a1b2c3", "https://example.com"⟩)] =
      .ok (.redirect "https://example.com",
        [("https://example.com", ⟨"a1b2c3", "https://example.com"⟩)]) ∧
    statusOf (.redirect "https://example.com") = 302 ∧
    handleRequest "g" ⟨.GET, "/a1b2c3", none⟩
        [("https://example.com", ⟨"a1b2c3", "https://example.com"⟩)] =
      .ok (.notFoundText "URL not found",
        [("https://example.com", ⟨"a1b2c3", "https://example.com"⟩)]) :=
  ⟨rfl, rfl, rfl, rfl⟩

/-- C7: counterexample to the uniqueness claim.  Two distinct long URLs
shortened while the generator happens to produce the same 6-character
candidate "abc123" both receive the shortId "abc123". -/
theorem uniqueness_violated_cex :
    postShorten "abc123" (some "http://one.example") [] =
      .ok (.jsonShortId "abc123",
        [("http://one.example", ⟨"abc123", "http://one.example"⟩)]) ∧
    postShorten "abc123" (some "http://two.example")
        [("http://one.example", ⟨"abc123", "http://one.example"⟩)] =
      .ok (.jsonShortId "abc123",
        [("http://one.example", ⟨"abc123", "http://one.example"⟩),
         ("http://two.example", ⟨"abc123", "http://two.example"⟩)]) ∧
    ("http://one.example" : String) ≠ "http://two.example" :=
  ⟨rfl, rfl, by decide⟩

/-- C7 amended: distinct valid fresh long URLs receive distinct short
IDs provided the generator outputs for the two allocations are distinct
(the code performs no uniqueness check of its own, so the guarantee
rests entirely on the generated candidates differing). -/
theorem shorten_ids_distinct_of_distinct_gen (g1 g2 u1 u2 s1 s2 : String)
    (st st1 st2 : Store)
    (h1 : strIncludes u1 ".deno.dev" = false)
    (h2 : strIncludes u2 ".deno.dev" = false)
    (hne : u1 ≠ u2) (f1 : kvGet st u1 = none) (f2 : kvGet st u2 = none)
    (hg : g1 ≠ g2)
    (e1 : postShorten g1 (some u1) st = .ok (.jsonShortId s1, st1))
    (e2 : postShorten g2 (some u2) st1 = .ok (.jsonShortId s2, st2)) :
    s1 ≠ s2 := by
  unfold postShorten at e1 e2
  simp [h1, f1] at e1
  obtain ⟨hs1, hst1⟩ := e1
  subst hs1
  subst hst1
  simp [h2, kvGet_kvSet_ne st u1 u2 ⟨g1, u1⟩ (Ne.symm hne), f2] at e2
  obtain ⟨hs2, -⟩ := e2
  subst hs2
  exact hg

/-- C7 amended witness: the theorem applied to two concrete fresh URLs
with distinct generator outputs. -/
theorem shorten_ids_distinct_of_distinct_gen_witness :
    postShorten "aaa111" (some "http://one.example") [] =
      .ok (.jsonShortId "aaa111",
        [("http://one.example", ⟨"aaa111", "http://one.example"⟩)]) ∧
    postShorten "bbb222" (some "http://two.example")
        [("http://one.example", ⟨"aaa111", "http://one.example"⟩)] =
      .ok (.jsonShortId "bbb222",
        [("http://one.example", ⟨"aaa111", "http://one.example"⟩),
         ("http://two.example", ⟨"bbb222", "http://two.example"⟩)]) ∧
    ("aaa111" : String) ≠ "bbb222" :=
  ⟨rfl, rfl,
    shorten_ids_distinct_of_distinct_gen "aaa111" "bbb222"
      "http://one.example" "http://two.example" "aaa111" "bbb222"
      [] [("http://one.example", ⟨"aaa111", "http://one.example"⟩)]
      [("http://one.example", ⟨"aaa111", "http://one.example"⟩),
       ("http://two.example", ⟨"bbb222", "http://two.example"⟩)]
      (by decide) (by decide) (by decide) rfl rfl (by decide) rfl rfl⟩

theorem resolveGet_snd (p : String) (st : Store) : (resolveGet p st).2 = st := by
  cases hkv : kvGet st (sliceOne p) <;> simp [resolveGet, hkv]

theorem isFileResponse_resolveGet (p : String) (st : Store) :
    isFileResponse (resolveGet p st).1 = false := by
  cases hkv : kvGet st (sliceOne p) <;> simp [resolveGet, hkv, isFileResponse]

/-- C9: resolution has no side effect on the store.  Handling any GET
request (whatever the pathname and whatever the body field) returns the
store it was given, unchanged. -/
theorem resolve_preserves_store (g p : String) (b : Option String) (st : Store)
    (res : HttpResponse) (st2 : Store)
    (h : handleRequest g ⟨Method.GET, p, b⟩ st = .ok (res, st2)) : st2 = st := by
  unfold handleRequest at h
  simp only [show (Method.GET = Method.OPTIONS) = False from by simp,
    show (Method.GET = Method.POST) = False from by simp,
    show (Method.GET = Method.GET) = True from by simp,
    false_and, true_and, if_false, if_true] at h
  split at h
  · injection h with h'
    have hsnd := resolveGet_snd p st
    rw [h'] at hsnd
    exact hsnd
  · split at h
    · injection h with h'
      injection h' with hres hst
      exact hst.symm
    · split at h
      · injection h with h'
        injection h' with hres hst
        exact hst.symm
      · split at h
        · injection h with h'
          injection h' with hres hst
          exact hst.symm
        · injection h with h'
          injection h' with hres hst
          exact hst.symm

/-- C9 witness: the theorem applied to GET /abc on the empty store. -/
theorem resolve_preserves_store_witness :
    handleRequest "g" ⟨Method.GET, "/abc", none⟩ [] =
      .ok (.notFoundText "URL not found", []) ∧ ([] : Store) = [] :=
  ⟨rfl, resolve_preserves_store "g" "/abc" none []
    (.notFoundText "URL not found") [] rfl⟩

/-- C10: every GET request whose pathname starts with "/" is handled by
the resolve branch; GET / with the empty-string short ID unmapped
answers 404 "URL not found"; and no request at all reaches the static
file branches, which are dead code. -/
theorem get_requests_hit_resolve_branch (g p : String) (b : Option String)
    (st : Store) :
    (strStartsWith p "/" = true →
      handleRequest g ⟨Method.GET, p, b⟩ st = .ok (resolveGet p st)) ∧
    (∀ res st2, handleRequest g ⟨Method.GET, p, b⟩ st = .ok (res, st2) →
      isFileResponse res = false) ∧
    (kvGet st "" = none →
      handleRequest g ⟨Method.GET, "/", b⟩ st =
        .ok (.notFoundText "URL not found", st)) := by
  refine ⟨?_, ?_, ?_⟩
  · intro hs
    unfold handleRequest
    simp [hs]
  · intro res st2 h
    unfold handleRequest at h
    simp only [show (Method.GET = Method.OPTIONS) = False from by simp,
      show (Method.GET = Method.POST) = False from by simp,
      show (Method.GET = Method.GET) = True from by simp,
      false_and, true_and, if_false, if_true] at h
    split at h
    · injection h with h'
      have hfile := isFileResponse_resolveGet p st
      rw [h'] at hfile
      exact hfile
    · rename_i hns
      split at h
      · rename_i hp
        rw [hp] at hns
        exact absurd (by decide : strStartsWith "/" "/" = true) hns
      · rename_i hp
        split at h
        · rename_i hcss
          rw [hcss] at hns
          exact absurd (by decide : strStartsWith "/styles.css" "/" = true) hns
        · split at h
          · rename_i hjs
            rw [hjs] at hns
            exact absurd (by decide : strStartsWith "/script.js" "/" = true) hns
          · injection h with h'
            injection h' with hres hst
            rw [← hres]
            rfl
  · intro hk
    unfold handleRequest
    simp only [show (Method.GET = Method.OPTIONS) = False from by simp,
      show (Method.GET = Method.POST) = False from by simp,
      show (Method.GET = Method.GET) = True from by simp,
      false_and, true_and, if_false, if_true,
      show strStartsWith "/" "/" = true from by decide, if_pos]
    have hslice : sliceOne "/" = "" := rfl
    simp [resolveGet, hslice, hk]

/-- C10 witness: the theorem applied to GET /abc and the empty store. -/
theorem get_requests_hit_resolve_branch_witness :
    (handleRequest "g" ⟨Method.GET, "/abc", none⟩ [] =
      .ok (resolveGet "/abc" [])) ∧
    isFileResponse (.notFoundText "URL not found") = false ∧
    (handleRequest "g" ⟨Method.GET, "/", none⟩ [] =
      .ok (.notFoundText "URL not found", [])) :=
  ⟨(get_requests_hit_resolve_branch "g" "/abc" none []).1 (by decide),
   (get_requests_hit_resolve_branch "g" "/abc" none []).2.1
     (.notFoundText "URL not found") [] rfl,
   (get_requests_hit_resolve_branch "g" "/abc" none []).2.2 rfl⟩
